import Mathlib

/-!
Verification development for the tariff rate resolution and conflict
validation engine of the CathayCargoMailSolution backend.

The Python source is shallowly embedded as follows.

* Dates (`datetime.date`) are modelled as integers under an arbitrary
  strictly monotone day-number encoding: the engine only ever compares
  dates and tests them for equality, so only the order matters.
* Python floats (weights, declared values, tariff rates and amounts) are
  modelled as rationals `ℚ`.  `round(x, 2)` is modelled by `round2` below;
  Python's float rounding is round-half-to-even on the binary value, which
  agrees with `round2` away from exact half-cent ties, and no statement in
  this file evaluates a half-cent tie.
* Nullable SQL columns and optional Python values are `Option ℚ` / `Option Int`.
  An SQL comparison against NULL is (three-valued) not-true, so a filter
  drops such a row; the embedding makes that explicit in `weightRangeOverlapSQL`.
* The `TariffRate.query...` store is an explicit `List TariffRate` in the
  order returned by the database; the per-instance dictionary
  `TariffCalculator.rate_cache` is an explicit association list threaded
  through `find_applicable_rate`.
* Python truthiness on strings is modelled by comparison with `""` (both
  `None` and the empty string are falsy; the engine treats them alike).
-/

namespace CathayTariff

/-- Currency rounding to two decimal places, modelling Python `round(x, 2)`
on the exact rational value (ties broken upward; no theorem below evaluates
a tie). -/
def round2 (q : ℚ) : ℚ := ((⌊q * 100 + 1/2⌋ : ℤ) : ℚ) / 100

/-- The configured tariff rule, from `backend/models.py` class `TariffRate`
(the fields read by the engine; `currency`, `notes` and the audit timestamps
are carried by the source model but never read by any modelled operation).
`min_weight`/`max_weight` default to SQL NULL in `backend/models.py`, hence
`Option ℚ`. -/
structure TariffRate where
  id : Nat
  origin_country : String
  destination_country : String
  goods_category : String
  postal_service : String
  start_date : Int
  end_date : Int
  min_weight : Option ℚ
  max_weight : Option ℚ
  tariff_rate : ℚ
  minimum_tariff : ℚ
  maximum_tariff : Option ℚ
  is_active : Bool
deriving DecidableEq

/-- `TariffRate.specificity_score` from `backend/models.py` lines 111-120:
+4 for an exact (non-wildcard) goods category, +2 for an exact postal
service, +1 when a weight bound is set. -/
def TariffRate.specificity_score (r : TariffRate) : Nat :=
  (if r.goods_category ≠ "*" then 4 else 0) +
  (if r.postal_service ≠ "*" then 2 else 0) +
  (if r.min_weight ≠ none ∨ r.max_weight ≠ none then 1 else 0)

/-- `TariffRate.is_applicable_for_date` from `backend/models.py`:
`start_date <= date <= end_date`. -/
def TariffRate.is_applicable_for_date (r : TariffRate) (d : Int) : Bool :=
  decide (r.start_date ≤ d) && decide (d ≤ r.end_date)

/-- `TariffRate.matches_criteria` from `backend/models.py`: each dimension
matches when the rate holds the wildcard, or the requested value is truthy
(non-empty) and equal to the rate's value. -/
def TariffRate.matches_criteria (r : TariffRate) (goods_category postal_service : String) : Bool :=
  (decide (r.goods_category = "*") || (decide (goods_category ≠ "") && decide (r.goods_category = goods_category))) &&
  (decide (r.postal_service = "*") || (decide (postal_service ≠ "") && decide (r.postal_service = postal_service)))

/-- Weight-bracket admission shared by `TariffRate.calculate_tariff` and the
resolver loop in `TariffCalculator.find_applicable_rate`: with a weight
supplied, reject when it falls below a set `min_weight` or above a set
`max_weight`; an unset bound imposes no constraint. -/
def TariffRate.weightOk (r : TariffRate) (weight : Option ℚ) : Bool :=
  match weight with
  | none => true
  | some w =>
    (match r.min_weight with
     | none => true
     | some mn => !(decide (w < mn))) &&
    (match r.max_weight with
     | none => true
     | some mx => !(decide (mx < w)))

/-- Lower clamp of `TariffRate.calculate_tariff`: raise the amount to
`minimum_tariff` when it falls below it. -/
def clampMin (t mn : ℚ) : ℚ := if t < mn then mn else t

/-- Upper clamp of `TariffRate.calculate_tariff`: Python guards with the
truthiness of `maximum_tariff`, so an unset (`None`) or zero maximum is not
applied. -/
def clampMax (t : ℚ) (mx : Option ℚ) : ℚ :=
  match mx with
  | none => t
  | some m => if m ≠ 0 ∧ m < t then m else t

/-- `TariffRate.calculate_tariff` from `backend/models.py` lines 71-93:
returns 0.0 for an inactive rate or a non-positive declared value, returns
0.0 when the supplied weight falls outside the rate's weight bracket, and
otherwise charges `declared_value * tariff_rate` clamped between
`minimum_tariff` and a truthy `maximum_tariff`, rounded to two decimals. -/
def TariffRate.calculate_tariff (r : TariffRate) (declared_value : ℚ) (weight : Option ℚ) : ℚ :=
  if r.is_active = false ∨ declared_value ≤ 0 then 0
  else if r.weightOk weight = false then 0
  else round2 (clampMax (clampMin (declared_value * r.tariff_rate) r.minimum_tariff) r.maximum_tariff)

/-- The argument tuple of `TariffCalculator.find_applicable_rate`; the source
builds the cache key by joining exactly these six arguments. -/
structure FindArgs where
  origin : String
  destination : String
  goods_category : String
  postal_service : String
  ship_date : Option Int
  weight : Option ℚ
deriving DecidableEq

/-- The per-instance dictionary `TariffCalculator.rate_cache`, keyed by the
argument tuple, holding the previously computed result (a rate, or a cached
miss). -/
abbrev RateCache := List (FindArgs × Option TariffRate)

/-- Dictionary lookup in `rate_cache` (first binding wins, as insertions
below always prepend the freshest binding). -/
def cacheLookup : RateCache → FindArgs → Option (Option TariffRate)
  | [], _ => none
  | (k, v) :: rest, a => if k = a then some v else cacheLookup rest a

/-- The `TariffRate.query.filter_by(origin_country=…, destination_country=…,
is_active=True)` step of `find_applicable_rate`: all active rates for the
route, in store order. -/
def activeRouteRates (store : List TariffRate) (a : FindArgs) : List TariffRate :=
  store.filter (fun r =>
    decide (r.origin_country = a.origin) &&
    decide (r.destination_country = a.destination) &&
    r.is_active)

/-- The per-rate admission test of the `find_applicable_rate` loop: criteria
match (category/service with wildcards), date validity when a ship date is
supplied, and weight bracket when a weight is supplied. -/
def rateApplicable (a : FindArgs) (r : TariffRate) : Bool :=
  r.matches_criteria a.goods_category a.postal_service &&
  (match a.ship_date with
   | none => true
   | some d => r.is_applicable_for_date d) &&
  r.weightOk a.weight

/-- The surviving candidates of `find_applicable_rate`: the active route
rates that pass every filter of the loop, in store order. -/
def applicableRates (store : List TariffRate) (a : FindArgs) : List TariffRate :=
  (activeRouteRates store a).filter (rateApplicable a)

/-- One step of selecting the most specific rate: keep the current candidate
unless the next one scores strictly higher. -/
def pickMoreSpecific (x y : TariffRate) : TariffRate :=
  if x.specificity_score < y.specificity_score then y else x

/-- Head of `applicable_rates.sort(key=specificity_score, reverse=True)`:
Python's sort is stable, so the head of the descending sort is the first
list element attaining the maximal specificity score, which is what this
left fold computes. -/
def firstMostSpecific (x : TariffRate) : List TariffRate → TariffRate
  | [] => x
  | y :: rest => firstMostSpecific (pickMoreSpecific x y) rest

/-- `TariffCalculator.find_applicable_rate` from `backend/tariff_calculator.py`
lines 26-95, with the instance cache made explicit: return a cached result
when the key is present; return `none` without caching when the route has no
active rates at all; otherwise filter, cache and return the most specific
surviving candidate (or a cached miss when none survives). -/
def find_applicable_rate (store : List TariffRate) (cache : RateCache) (a : FindArgs) :
    Option TariffRate × RateCache :=
  match cacheLookup cache a with
  | some v => (v, cache)
  | none =>
    if (activeRouteRates store a).isEmpty then (none, cache)
    else
      match applicableRates store a with
      | [] => (none, (a, none) :: cache)
      | x :: rest => (some (firstMostSpecific x rest), (a, some (firstMostSpecific x rest)) :: cache)

/-- A historical `ProcessedShipment` row as read by the fallback estimator:
route endpoints plus the two string columns the SQL query casts to floats.
`none` models a NULL column (the query filters such rows out with
`isnot(None)`). -/
structure ShipHist where
  origin : String
  destination : String
  declared_value : Option ℚ
  tariff_amount : Option ℚ
deriving DecidableEq

/-- The rows selected by the historical query of `calculate_fallback_tariff`:
same route, both value columns non-NULL. -/
def routeHistRows (history : List ShipHist) (origin destination : String) : List ShipHist :=
  history.filter (fun s =>
    decide (s.origin = origin) && decide (s.destination = destination) &&
    !s.declared_value.isNone && !s.tariff_amount.isNone)

/-- `SUM(declared_value)` of the historical query (`0` stands for SQL NULL on
an empty selection: both are falsy in the guard that chooses the branch). -/
def totalDeclaredValue (history : List ShipHist) (origin destination : String) : ℚ :=
  ((routeHistRows history origin destination).map (fun s => s.declared_value.getD 0)).sum

/-- `SUM(tariff_amount)` of the historical query. -/
def totalTariffAmount (history : List ShipHist) (origin destination : String) : ℚ :=
  ((routeHistRows history origin destination).map (fun s => s.tariff_amount.getD 0)).sum

/-- `TariffCalculator.default_rate`, hard-coded to 0.8 in
`TariffCalculator.__init__`. -/
def default_rate : ℚ := 8/10

/-- `TariffCalculator.calculate_fallback_tariff` from
`backend/tariff_calculator.py` lines 143-187.  The historical branch is taken
exactly when the Python guard
`total_declared_value and total_declared_value > 0 and total_tariff_amount`
holds, i.e. when the declared-value sum is non-NULL and positive and the
tariff sum is non-NULL and nonzero; otherwise the amount falls back to
`declared_value * default_rate`.  Both branches round to two decimals. -/
def calculate_fallback_tariff (history : List ShipHist) (origin destination : String)
    (declared_value : ℚ) : ℚ :=
  let totD := totalDeclaredValue history origin destination
  let totT := totalTariffAmount history origin destination
  if 0 < totD ∧ totT ≠ 0 then round2 (declared_value * (totT / totD))
  else round2 (declared_value * default_rate)

/-- Content of a string-typed shipment column as seen by the
`float(x) if x else …` conversions of `calculate_tariff_for_shipment`:
absent or empty (falsy), present but not parseable as a float (raises
`ValueError`), or a numeric string. -/
inductive StrVal where
  | missing
  | nonNumeric
  | num (q : ℚ)
deriving DecidableEq

/-- `float(shipment.declared_value) if shipment.declared_value else 0.0`:
`none` models the raised `ValueError`. -/
def floatOrZero : StrVal → Option ℚ
  | .missing => some 0
  | .nonNumeric => none
  | .num q => some q

/-- `float(shipment.bag_weight) if shipment.bag_weight else None`: the outer
`none` models the raised `ValueError`. -/
def floatOrNone : StrVal → Option (Option ℚ)
  | .missing => some none
  | .nonNumeric => none
  | .num q => some (some q)

/-- A `ProcessedShipment` as consumed by
`TariffCalculator.calculate_tariff_for_shipment`.  The classification fields
`goods_category`/`shipment_date` carry their values after
`auto_populate_tariff_fields` (a deterministic enrichment from other shipment
columns that never touches `declared_value`, `bag_weight` or the route
fields; the spec scopes the classification heuristics out of the engine).
`""` models a missing route field (`or ''` in the source maps both alike). -/
structure Shipment where
  declared_value : StrVal
  bag_weight : StrVal
  host_origin_station : String
  host_destination_station : String
  goods_category : String
  postal_service : String
  shipment_date : Option Int
deriving DecidableEq

/-- The shared `try` block of `calculate_tariff_for_shipment`: one failing
conversion resets both values (`declared_value = 0.0; weight = None`). -/
def shipmentValues (s : Shipment) : ℚ × Option ℚ :=
  match floatOrZero s.declared_value, floatOrNone s.bag_weight with
  | some d, some w => (d, w)
  | _, _ => (0, none)

/-- `shipment.goods_category or '*'` (and likewise for `postal_service`). -/
def orStar (s : String) : String := if s = "" then "*" else s

/-- `TariffCalculator.calculate_tariff_for_shipment` from
`backend/tariff_calculator.py` lines 97-141: parse the value columns, return
`(0.0, None)` for a non-positive declared value, otherwise resolve a rate
through the cache and either evaluate it or fall back to the historical
estimator.  The result triple is (amount, applied rate, cache after the
call). -/
def calculate_tariff_for_shipment (store : List TariffRate) (history : List ShipHist)
    (cache : RateCache) (s : Shipment) : ℚ × Option TariffRate × RateCache :=
  let dv := (shipmentValues s).1
  let w := (shipmentValues s).2
  if dv ≤ 0 then (0, none, cache)
  else
    match find_applicable_rate store cache
      ⟨s.host_origin_station, s.host_destination_station,
       orStar s.goods_category, orStar s.postal_service, s.shipment_date, w⟩ with
    | (some rate, c) => (rate.calculate_tariff dv w, some rate, c)
    | (none, c) =>
      (calculate_fallback_tariff history s.host_origin_station s.host_destination_station dv,
       none, c)

/-- The `calculation_method` of the spec's ResolutionResult, as the call
sites derive it: `configured` when a rate was applied, `fallback`
otherwise. -/
def calculation_method : Option TariffRate → String
  | some _ => "configured"
  | none => "fallback"

/-- The (origin, destination, goods_category, postal_service) scope equality
shared by every conflict query. -/
def sameScope (r : TariffRate) (o d gc ps : String) : Bool :=
  decide (r.origin_country = o) && decide (r.destination_country = d) &&
  decide (r.goods_category = gc) && decide (r.postal_service = ps)

/-- Date-interval overlap filter of the conflict queries:
`cls.start_date <= end_date AND cls.end_date >= start_date`. -/
def dateRangeOverlap (r : TariffRate) (start_date end_date : Int) : Bool :=
  decide (r.start_date ≤ end_date) && decide (start_date ≤ r.end_date)

/-- Weight-interval overlap filter of `check_weight_range_overlap`
(`src/models/database.py`): `cls.min_weight <= max_weight AND
cls.max_weight >= min_weight`.  A stored NULL bound makes the SQL comparison
not-true, so such a row is never selected. -/
def weightRangeOverlapSQL (r : TariffRate) (min_weight max_weight : ℚ) : Bool :=
  match r.min_weight, r.max_weight with
  | some a, some b => decide (a ≤ max_weight) && decide (min_weight ≤ b)
  | _, _ => false

/-- `TariffRate.check_weight_range_overlap` from `src/models/database.py`
lines 90-114: active rates of the same scope whose date and weight intervals
both overlap the candidate's; the candidate's own id is excluded when a
truthy `exclude_id` is given (`0` models the falsy absent id). -/
def check_weight_range_overlap (store : List TariffRate) (o d gc ps : String)
    (start_date end_date : Int) (min_weight max_weight : ℚ) (exclude_id : Nat) :
    List TariffRate :=
  let q := store.filter (fun r =>
    sameScope r o d gc ps && r.is_active &&
    dateRangeOverlap r start_date end_date &&
    weightRangeOverlapSQL r min_weight max_weight)
  if exclude_id ≠ 0 then q.filter (fun r => decide (r.id ≠ exclude_id)) else q

/-- `TariffRate.check_overlapping_rates` from `src/models/database.py` lines
69-88 (the legacy date-only conflict query, still invoked by the create
endpoint): active rates of the same scope whose date intervals overlap the
candidate's, with no weight condition at all. -/
def check_overlapping_rates (store : List TariffRate) (o d gc ps : String)
    (start_date end_date : Int) (exclude_id : Nat) : List TariffRate :=
  let q := store.filter (fun r =>
    sameScope r o d gc ps && r.is_active &&
    dateRangeOverlap r start_date end_date)
  if exclude_id ≠ 0 then q.filter (fun r => decide (r.id ≠ exclude_id)) else q

/-- The payload of `TariffCalculator.validate_rate_conflicts`: `""` models a
missing/falsy route field, `none` a missing date (the `%Y-%m-%d` parsing is
modelled as already done, dates being day numbers), `0` a falsy absent
`id`. -/
structure ValidatePayload where
  origin_country : String
  destination_country : String
  goods_category : String
  postal_service : String
  start_date : Option Int
  end_date : Option Int
  id : Nat
deriving DecidableEq

/-- The three-disjunct date-overlap filter of the `validate_rate_conflicts`
query: an existing rate is selected when it contains the candidate's start,
contains the candidate's end, or lies inside the candidate's range. -/
def tripleDateOverlap (r : TariffRate) (start_date end_date : Int) : Bool :=
  (decide (r.start_date ≤ start_date) && decide (start_date ≤ r.end_date)) ||
  (decide (r.start_date ≤ end_date) && decide (end_date ≤ r.end_date)) ||
  (decide (start_date ≤ r.start_date) && decide (r.end_date ≤ end_date))

/-- `TariffCalculator.validate_rate_conflicts` from
`backend/tariff_calculator.py` lines 322-382, as the list of error strings it
returns (the source interpolates record details into the overlap message;
only the message presence matters here).  Missing required fields return
early; a reversed date order appends an error but the overlap query still
runs; the overlap query matches the scope exactly and compares dates only,
never weights. -/
def validate_rate_conflicts (store : List TariffRate) (p : ValidatePayload) : List String :=
  let missing :=
    (if p.origin_country = "" then ["Missing required field: origin_country"] else []) ++
    (if p.destination_country = "" then ["Missing required field: destination_country"] else []) ++
    (if p.start_date = none then ["Missing required field: start_date"] else []) ++
    (if p.end_date = none then ["Missing required field: end_date"] else [])
  if missing ≠ [] then missing
  else
    let sd := p.start_date.getD 0
    let ed := p.end_date.getD 0
    let dateErrs := if ed ≤ sd then ["Start date must be before end date"] else []
    let overlapping := store.filter (fun r =>
      sameScope r p.origin_country p.destination_country p.goods_category p.postal_service &&
      r.is_active && tripleDateOverlap r sd ed)
    let overlapping :=
      if p.id ≠ 0 then overlapping.filter (fun r => decide (r.id ≠ p.id)) else overlapping
    dateErrs ++ (if overlapping ≠ [] then ["Overlapping rates found"] else [])

/-- The request payload of the `POST /tariff-rates` endpoint
(`create_tariff_rate` in `backend/app.py`): `""` models a missing route
field, `none` an absent key whose `data.get(…, default)` default the
function applies itself. -/
structure CreatePayload where
  origin_country : String
  destination_country : String
  goods_category : String
  postal_service : String
  start_date : Option Int
  end_date : Option Int
  min_weight : Option ℚ
  max_weight : Option ℚ
  tariff_rate : Option ℚ
deriving DecidableEq

/-- Day number of the default end date 2099-12-31 applied by the endpoint
when no end date is sent (only its order relative to other dates matters). -/
def date2099 : Int := 47481

/-- Outcome of the `POST /tariff-rates` endpoint, abstracting its HTTP
responses: a 400 from a field/range check, a 400 carrying conflicting rates,
or the successful update/create branches. -/
inductive CreateOutcome where
  | validationError (msg : String)
  | conflictError (msg : String)
  | updated
  | created
deriving DecidableEq

/-- Whether an outcome is one of the field/range validation rejections. -/
def isValidationError : CreateOutcome → Bool
  | .validationError _ => true
  | _ => false

/-- `create_tariff_rate` from `backend/app.py` lines 710-850: require the
route fields, default the dates, reject `start_date >= end_date`, default and
validate the weight range, then run the weight-overlap conflict query
followed by the legacy date-only conflict query, and finally update an
exactly matching row or create a new one (requiring `tariff_rate`). -/
def create_tariff_rate (store : List TariffRate) (p : CreatePayload) (today : Int) :
    CreateOutcome :=
  if p.origin_country = "" ∨ p.destination_country = "" then
    .validationError "Origin and destination countries are required"
  else
    let sd := p.start_date.getD today
    let ed := p.end_date.getD date2099
    if ed ≤ sd then .validationError "Start date must be before end date"
    else
      let mn := p.min_weight.getD 0
      let mx := p.max_weight.getD 999999
      if mn < 0 ∨ mx < 0 then .validationError "Weight values cannot be negative"
      else if mx < mn then .validationError "Minimum weight cannot be greater than maximum weight"
      else if check_weight_range_overlap store p.origin_country p.destination_country
        p.goods_category p.postal_service sd ed mn mx 0 ≠ [] then
        .conflictError "Weight range overlaps with existing rates for the same date and route"
      else if check_overlapping_rates store p.origin_country p.destination_country
        p.goods_category p.postal_service sd ed 0 ≠ [] then
        .conflictError "Date range overlaps with existing rates"
      else if store.any (fun r =>
        sameScope r p.origin_country p.destination_country p.goods_category p.postal_service &&
        decide (r.start_date = sd) && decide (r.end_date = ed) &&
        decide (r.min_weight = some mn) && decide (r.max_weight = some mx)) then .updated
      else
        match p.tariff_rate with
        | none => .validationError "tariff rate is required"
        | some _ => .created

/-- An active wildcard rate with only a minimum tariff configured. -/
def rateMinOnly : TariffRate :=
  ⟨11, "CN", "US", "*", "*", 0, 100, none, none, mkRat 1 10, 5, none, true⟩

/-- An active wildcard rate with both clamps configured (minimum 5,
maximum 20). -/
def rateMinMax : TariffRate :=
  ⟨12, "CN", "US", "*", "*", 0, 100, none, none, mkRat 1 10, 5, some 20, true⟩

/-- An active wildcard rate with the weight bracket [0, 10]. -/
def rateBracketed : TariffRate :=
  ⟨13, "CN", "US", "*", "*", 0, 100, some 0, some 10, mkRat 1 10, 0, none, true⟩

/-- An active rate wildcarded in every dimension with unset weight bounds. -/
def rateWild : TariffRate :=
  ⟨1, "CN", "US", "*", "*", 0, 100, none, none, mkRat 1 10, 0, none, true⟩

/-- An active rate exact in goods category only (wildcard service, unset
weight bounds). -/
def rateElec : TariffRate :=
  ⟨2, "CN", "US", "Electronics", "*", 0, 100, none, none, mkRat 15 100, 0, none, true⟩

/-- An active rate exact in postal service with a non-default weight
bracket, wildcard category. -/
def ratePsWeight : TariffRate :=
  ⟨15, "CN", "US", "*", "EMS", 0, 100, some 0, some 10, mkRat 1 10, 0, none, true⟩

/-- An active stored rate covering dates [0, 10] and weights [0, 10]. -/
def rateStored : TariffRate :=
  ⟨3, "CN", "US", "*", "*", 0, 10, some 0, some 10, mkRat 1 10, 0, none, true⟩

/-- A resolution request exact in category and service for the CN to US
route, ship date 50, weight 2. -/
def argsElec : FindArgs := ⟨"CN", "US", "Electronics", "EMS", some 50, some 2⟩

/-- A fully wildcarded resolution request for the CN to US route with no
ship date and no weight. -/
def argsWild : FindArgs := ⟨"CN", "US", "*", "*", none, none⟩

/-- A candidate for `validate_rate_conflicts` with dates [5, 15] in the
same scope as `rateStored`. -/
def vpDisjoint : ValidatePayload := ⟨"CN", "US", "*", "*", some 5, some 15, 0⟩

/-- A create payload with dates [5, 15] and weight interval [20, 30],
disjoint from the [0, 10] weights of `rateStored`. -/
def cpDisjoint : CreatePayload :=
  ⟨"CN", "US", "*", "*", some 5, some 15, some 20, some 30, some (mkRat 1 10)⟩

/-- A create payload whose validity interval is the single day 5. -/
def cpOneDay : CreatePayload :=
  ⟨"CN", "US", "*", "*", some 5, some 5, none, none, some (mkRat 1 10)⟩

/-- A create payload with a missing origin. -/
def cpNoRoute : CreatePayload :=
  ⟨"", "US", "*", "*", some 5, some 15, none, none, some (mkRat 1 10)⟩

/-- A shipment whose declared value column does not parse as a float. -/
def shipBadValue : Shipment :=
  ⟨.nonNumeric, .num 2, "CN", "US", "Electronics", "EMS", some 50⟩

/-- A shipment history with one CN to US row of declared value 100 and
tariff amount 0. -/
def histZeroTariff : List ShipHist := [⟨"CN", "US", some 100, some 0⟩]

/-! Helper lemmas shared by the claim theorems. -/

theorem filter_ne_nil {α : Type} (p : α → Bool) (l : List α) :
    l.filter p ≠ [] ↔ ∃ a ∈ l, p a = true := by
  constructor
  · intro h
    rcases List.exists_mem_of_ne_nil _ h with ⟨a, ha⟩
    rw [List.mem_filter] at ha
    exact ⟨a, ha.1, ha.2⟩
  · rintro ⟨a, hal, hpa⟩ hnil
    have hmem : a ∈ l.filter p := List.mem_filter.mpr ⟨hal, hpa⟩
    rw [hnil] at hmem
    exact absurd hmem (List.not_mem_nil a)

theorem cacheLookup_cons_self (a : FindArgs) (v : Option TariffRate) (c : RateCache) :
    cacheLookup ((a, v) :: c) a = some v := by
  simp [cacheLookup]

theorem weightRangeOverlapSQL_iff (r : TariffRate) (mn mx : ℚ) :
    weightRangeOverlapSQL r mn mx = true ↔
    ∃ a b, r.min_weight = some a ∧ r.max_weight = some b ∧ a ≤ mx ∧ mn ≤ b := by
  cases hmn : r.min_weight <;> cases hmx : r.max_weight <;>
    simp [weightRangeOverlapSQL, hmn, hmx, and_assoc]

theorem le_clampMin (t mn : ℚ) : mn ≤ clampMin t mn := by
  unfold clampMin
  split_ifs with h
  · exact le_refl mn
  · exact le_of_not_lt h

theorem round2_mono {x y : ℚ} (h : x ≤ y) : round2 x ≤ round2 y := by
  unfold round2
  have hf : (⌊x * 100 + 1/2⌋ : ℤ) ≤ ⌊y * 100 + 1/2⌋ := Int.floor_le_floor (by linarith)
  have hq : ((⌊x * 100 + 1/2⌋ : ℤ) : ℚ) ≤ ((⌊y * 100 + 1/2⌋ : ℤ) : ℚ) := by exact_mod_cast hf
  linarith

theorem round2_cent (k : ℤ) : round2 ((k : ℚ) / 100) = (k : ℚ) / 100 := by
  unfold round2
  have h1 : (k : ℚ) / 100 * 100 + 1/2 = (k : ℚ) + 1/2 := by
    rw [div_mul_cancel₀]
    norm_num
  have h2 : ⌊(k : ℚ) + 1/2⌋ = k + ⌊(1/2 : ℚ)⌋ := by
    rw [add_comm]
    rw [Int.floor_add_int]
    ring
  have h3 : ⌊(1/2 : ℚ)⌋ = 0 := by
    rw [Int.floor_eq_zero_iff]
    constructor <;> norm_num
  rw [h1, h2, h3]
  push_cast
  ring

theorem firstMostSpecific_le (l : List TariffRate) :
    ∀ (x r : TariffRate), r ∈ x :: l →
      r.specificity_score ≤ (firstMostSpecific x l).specificity_score := by
  induction l with
  | nil =>
    intro x r hr
    rw [List.mem_singleton] at hr
    subst hr
    exact Nat.le_refl _
  | cons y l ih =>
    intro x r hr
    have hx : x.specificity_score ≤ (pickMoreSpecific x y).specificity_score := by
      unfold pickMoreSpecific
      split_ifs with h
      · exact Nat.le_of_lt h
      · exact Nat.le_refl _
    have hy : y.specificity_score ≤ (pickMoreSpecific x y).specificity_score := by
      unfold pickMoreSpecific
      split_ifs with h
      · exact Nat.le_refl _
      · exact Nat.le_of_not_lt h
    have htop : (pickMoreSpecific x y).specificity_score ≤
        (firstMostSpecific (pickMoreSpecific x y) l).specificity_score :=
      ih (pickMoreSpecific x y) _ (List.mem_cons_self _ _)
    rw [List.mem_cons] at hr
    rcases hr with h1 | h1
    · subst h1
      exact le_trans hx htop
    · rw [List.mem_cons] at h1
      rcases h1 with h2 | h2
      · subst h2
        exact le_trans hy htop
      · exact ih (pickMoreSpecific x y) r (List.mem_cons_of_mem _ h2)

theorem find_applicable_rate_stable (store : List TariffRate) (cache : RateCache) (a : FindArgs) :
    find_applicable_rate store (find_applicable_rate store cache a).2 a =
      find_applicable_rate store cache a := by
  cases hc : cacheLookup cache a with
  | some v => simp [find_applicable_rate, hc]
  | none =>
    by_cases hre : (activeRouteRates store a).isEmpty
    · simp [find_applicable_rate, hc, hre]
    · cases hap : applicableRates store a with
      | nil => simp [find_applicable_rate, hc, hre, hap, cacheLookup]
      | cons x rest => simp [find_applicable_rate, hc, hre, hap, cacheLookup]

theorem calculate_tariff_for_shipment_stable (store : List TariffRate) (history : List ShipHist)
    (cache : RateCache) (s : Shipment) :
    calculate_tariff_for_shipment store history
        (calculate_tariff_for_shipment store history cache s).2.2 s =
      calculate_tariff_for_shipment store history cache s := by
  by_cases hdv : (shipmentValues s).1 ≤ 0
  · simp [calculate_tariff_for_shipment, hdv]
  · have hst := find_applicable_rate_stable store cache
      ⟨s.host_origin_station, s.host_destination_station,
       orStar s.goods_category, orStar s.postal_service, s.shipment_date, (shipmentValues s).2⟩
    cases hf : find_applicable_rate store cache
        ⟨s.host_origin_station, s.host_destination_station,
         orStar s.goods_category, orStar s.postal_service, s.shipment_date,
         (shipmentValues s).2⟩ with
    | mk r c =>
      rw [hf] at hst
      cases r with
      | none => simp [calculate_tariff_for_shipment, hdv, hf, hst]
      | some rate => simp [calculate_tariff_for_shipment, hdv, hf, hst]

/-! Claim theorems. -/

/-- C1 (counterexample): a candidate (dates [5, 15], weights [20, 30]) whose
weight interval is disjoint from the only same-scope active stored rate
(`rateStored`, dates [0, 10], weights [0, 10]) is nevertheless rejected:
`validate_rate_conflicts` reports a conflict (it compares dates only), and
the create endpoint rejects it through its legacy date-only check — refuting
the claim that conflicts are reported only when the weight intervals also
overlap. -/
theorem C1_counterexample :
    weightRangeOverlapSQL rateStored 20 30 = false ∧
    check_weight_range_overlap [rateStored] "CN" "US" "*" "*" 5 15 20 30 0 = [] ∧
    validate_rate_conflicts [rateStored] vpDisjoint ≠ [] ∧
    create_tariff_rate [rateStored] cpDisjoint 0 =
      CreateOutcome.conflictError "Date range overlaps with existing rates" := by
  decide

/-- C1 (amended): `TariffRate.check_weight_range_overlap` alone implements
the claimed conjunction — it reports a non-empty conflict list iff some
stored rate has the same scope, is active, its date interval overlaps the
candidate's and its (non-NULL) weight interval overlaps the candidate's,
the excluded id (when truthy) being skipped; the other two validation paths
compare dates only. -/
theorem C1_theorem (store : List TariffRate) (o d gc ps : String)
    (sd ed : Int) (mn mx : ℚ) (eid : Nat) :
    check_weight_range_overlap store o d gc ps sd ed mn mx eid ≠ [] ↔
    ∃ r ∈ store, r.origin_country = o ∧ r.destination_country = d ∧
      r.goods_category = gc ∧ r.postal_service = ps ∧ r.is_active = true ∧
      r.start_date ≤ ed ∧ sd ≤ r.end_date ∧
      (∃ a b, r.min_weight = some a ∧ r.max_weight = some b ∧ a ≤ mx ∧ mn ≤ b) ∧
      (eid ≠ 0 → r.id ≠ eid) := by
  have base : ∀ r : TariffRate,
      (sameScope r o d gc ps && r.is_active && dateRangeOverlap r sd ed &&
        weightRangeOverlapSQL r mn mx) = true ↔
      (r.origin_country = o ∧ r.destination_country = d ∧ r.goods_category = gc ∧
        r.postal_service = ps ∧ r.is_active = true ∧ r.start_date ≤ ed ∧ sd ≤ r.end_date ∧
        ∃ a b, r.min_weight = some a ∧ r.max_weight = some b ∧ a ≤ mx ∧ mn ≤ b) := by
    intro r
    simp only [Bool.and_eq_true, decide_eq_true_eq, sameScope, dateRangeOverlap,
      weightRangeOverlapSQL_iff]
    tauto
  by_cases heid : eid = 0
  · subst heid
    simp only [check_weight_range_overlap, if_neg (by simp : ¬(0 : Nat) ≠ 0)]
    rw [filter_ne_nil]
    constructor
    · rintro ⟨r, hr, hp⟩
      rw [base r] at hp
      exact ⟨r, hr, by tauto⟩
    · rintro ⟨r, hr, hp⟩
      refine ⟨r, hr, (base r).mpr ?_⟩
      tauto
  · simp only [check_weight_range_overlap, if_pos heid]
    rw [filter_ne_nil]
    constructor
    · rintro ⟨r, hr, hid⟩
      rw [List.mem_filter] at hr
      rcases hr with ⟨hr, hp⟩
      rw [base r] at hp
      rw [decide_eq_true_eq] at hid
      exact ⟨r, hr, by tauto⟩
    · rintro ⟨r, hr, hp⟩
      have hid : r.id ≠ eid := by tauto
      refine ⟨r, List.mem_filter.mpr ⟨hr, (base r).mpr ?_⟩, by simpa using hid⟩
      tauto

/-- C2 (counterexample): for a declared value of 0 (which the claim's
`declared_value ≥ 0` admits) the evaluator returns 0.0, below the
configured minimum tariff of 5. -/
theorem C2_counterexample :
    (0 : ℚ) ≤ 0 ∧ ¬ rateMinOnly.minimum_tariff ≤ rateMinOnly.calculate_tariff 0 none := by
  decide

/-- C2 (amended): for an active rate, a strictly positive declared value, a
weight inside the rate's bracket, clamps expressed in whole cents, and a
maximum (when set) that is nonzero and at least the minimum, the evaluated
amount lies between `minimum_tariff` and `maximum_tariff`. -/
theorem C2_theorem (r : TariffRate) (dv : ℚ) (w : Option ℚ)
    (hact : r.is_active = true) (hdv : 0 < dv) (hw : r.weightOk w = true)
    (hkmin : ∃ k : ℤ, r.minimum_tariff = (k : ℚ) / 100)
    (hmax : ∀ m, r.maximum_tariff = some m →
      (∃ k : ℤ, m = (k : ℚ) / 100) ∧ m ≠ 0 ∧ r.minimum_tariff ≤ m) :
    r.minimum_tariff ≤ r.calculate_tariff dv w ∧
      ∀ m, r.maximum_tariff = some m → r.calculate_tariff dv w ≤ m := by
  obtain ⟨kmin, hkm⟩ := hkmin
  have hfix : round2 r.minimum_tariff = r.minimum_tariff := by rw [hkm]; exact round2_cent kmin
  unfold TariffRate.calculate_tariff
  rw [if_neg (by simp [hact]; linarith), if_neg (by simp [hw])]
  have hmin1 : r.minimum_tariff ≤ clampMin (dv * r.tariff_rate) r.minimum_tariff :=
    le_clampMin _ _
  cases hM : r.maximum_tariff with
  | none =>
    refine ⟨?_, by simp⟩
    simp only [clampMax]
    calc r.minimum_tariff = round2 r.minimum_tariff := hfix.symm
      _ ≤ round2 (clampMin (dv * r.tariff_rate) r.minimum_tariff) := round2_mono hmin1
  | some m =>
    obtain ⟨⟨km, hkmm⟩, hm0, hminm⟩ := hmax m hM
    have hfixm : round2 m = m := by rw [hkmm]; exact round2_cent km
    simp only [clampMax]
    by_cases hcl : m ≠ 0 ∧ m < clampMin (dv * r.tariff_rate) r.minimum_tariff
    · rw [if_pos hcl]
      constructor
      · calc r.minimum_tariff = round2 r.minimum_tariff := hfix.symm
          _ ≤ round2 m := round2_mono hminm
      · intro m2 hm2
        injection hm2 with hm2
        subst hm2
        rw [hfixm]
    · rw [if_neg hcl]
      have hle : clampMin (dv * r.tariff_rate) r.minimum_tariff ≤ m := by
        rcases not_and_or.mp hcl with h | h
        · exact absurd hm0 (by simpa using h)
        · exact le_of_not_lt h
      constructor
      · calc r.minimum_tariff = round2 r.minimum_tariff := hfix.symm
          _ ≤ round2 (clampMin (dv * r.tariff_rate) r.minimum_tariff) := round2_mono hmin1
      · intro m2 hm2
        injection hm2 with hm2
        subst hm2
        calc round2 (clampMin (dv * r.tariff_rate) r.minimum_tariff)
            ≤ round2 m := round2_mono hle
          _ = m := hfixm

/-- C2 (witness): the amended bounds at the active rate `rateMinMax`
(minimum 5, maximum 20) and declared value 1000. -/
theorem C2_witness :
    rateMinMax.minimum_tariff ≤ rateMinMax.calculate_tariff 1000 none ∧
      ∀ m, rateMinMax.maximum_tariff = some m → rateMinMax.calculate_tariff 1000 none ≤ m :=
  C2_theorem rateMinMax 1000 none (by decide) (by norm_num) (by decide)
    ⟨500, by norm_num [rateMinMax]⟩
    (by
      intro m hm
      simp only [rateMinMax, Option.some.injEq] at hm
      subst hm
      exact ⟨⟨2000, by norm_num⟩, by norm_num, by norm_num [rateMinMax]⟩)

/-- C3 (counterexample): `rateElec` is exact only in goods category yet its
specificity score is 4, not the claimed 2. -/
theorem C3_counterexample :
    rateElec.goods_category ≠ "*" ∧ rateElec.postal_service = "*" ∧
    rateElec.min_weight = none ∧ rateElec.max_weight = none ∧
    rateElec.specificity_score ≠ 2 := by
  decide

/-- C3 (amended): the specificity score adds 4 for an exact goods category,
2 for an exact postal service and 1 for a set weight bound; a rate exact
only in category scores 4, a category-wildcard rate exact in service with
bounded weight scores 3, and every category-exact rate strictly outscores
every category-wildcard rate. -/
theorem C3_theorem (a b : TariffRate) :
    (a.goods_category ≠ "*" → a.postal_service = "*" → a.min_weight = none →
      a.max_weight = none → a.specificity_score = 4) ∧
    (b.goods_category = "*" → b.postal_service ≠ "*" →
      (b.min_weight ≠ none ∨ b.max_weight ≠ none) → b.specificity_score = 3) ∧
    (a.goods_category ≠ "*" → b.goods_category = "*" →
      b.specificity_score < a.specificity_score) := by
  refine ⟨?_, ?_, ?_⟩
  · intro h1 h2 h3 h4
    simp [TariffRate.specificity_score, h1, h2, h3, h4]
  · intro h1 h2 h3
    simp [TariffRate.specificity_score, h1, h2, h3]
  · intro h1 h2
    simp only [TariffRate.specificity_score]
    rw [if_pos h1, if_neg (show ¬ b.goods_category ≠ "*" by simp [h2])]
    split_ifs <;> omega

/-- C3 (witness): the amended score at `rateElec` (category-exact only,
score 4) and `ratePsWeight` (service-exact with bounded weight, score 3). -/
theorem C3_witness :
    rateElec.specificity_score = 4 ∧ ratePsWeight.specificity_score = 3 ∧
      ratePsWeight.specificity_score < rateElec.specificity_score :=
  ⟨(C3_theorem rateElec ratePsWeight).1 (by decide) (by decide) (by decide) (by decide),
   (C3_theorem rateElec ratePsWeight).2.1 (by decide) (by decide) (by decide),
   (C3_theorem rateElec ratePsWeight).2.2 (by decide) (by decide)⟩

/-- C4 (counterexample): after an earlier resolution on a store holding only
the wildcard rate, its cached result survives a store mutation; on the
mutated store both `rateElec` (score 4) and `rateWild` (score 0) survive the
filters, yet the resolver returns the cached, strictly less specific
`rateWild` — refuting the claim for every store and request. -/
theorem C4_counterexample :
    rateElec ∈ applicableRates [rateElec, rateWild] argsElec ∧
    rateWild ∈ applicableRates [rateElec, rateWild] argsElec ∧
    rateWild.specificity_score < rateElec.specificity_score ∧
    (find_applicable_rate [rateElec, rateWild]
      (find_applicable_rate [rateWild] [] argsElec).2 argsElec).1 = some rateWild := by
  decide

/-- C4 (amended): when the calculator's cache holds no entry for the
argument tuple (a fresh instance, or the first call on these arguments),
the resolver never returns a surviving candidate that is strictly less
specific than another surviving candidate. -/
theorem C4_theorem (store : List TariffRate) (cache : RateCache) (a : FindArgs)
    (A B : TariffRate) (hc : cacheLookup cache a = none)
    (hA : A ∈ applicableRates store a) (hB : B ∈ applicableRates store a)
    (hlt : B.specificity_score < A.specificity_score) :
    (find_applicable_rate store cache a).1 ≠ some B := by
  cases hap : applicableRates store a with
  | nil =>
    rw [hap] at hB
    exact absurd hB (List.not_mem_nil B)
  | cons x rest =>
    have hBr : B ∈ activeRouteRates store a := by
      have hBf := hB
      unfold applicableRates at hBf
      exact (List.mem_filter.mp hBf).1
    have hre : (activeRouteRates store a).isEmpty = false := by
      have hne : activeRouteRates store a ≠ [] := by
        intro hnil
        rw [hnil] at hBr
        exact absurd hBr (List.not_mem_nil B)
      simpa [List.isEmpty_iff] using hne
    simp only [find_applicable_rate, hc, hre, hap, Bool.false_eq_true, if_false]
    intro hEq
    rw [Option.some_inj] at hEq
    have hAle : A.specificity_score ≤ (firstMostSpecific x rest).specificity_score := by
      apply firstMostSpecific_le
      rw [← hap]
      exact hA
    rw [hEq] at hAle
    exact absurd hAle (Nat.not_le.mpr hlt)

/-- C4 (witness): the amended monotonicity at the two-rate store, the exact
request and an empty cache: the resolver does not return the wildcard
rate. -/
theorem C4_witness :
    (find_applicable_rate [rateElec, rateWild] [] argsElec).1 ≠ some rateWild :=
  C4_theorem [rateElec, rateWild] [] argsElec rateElec rateWild
    (by decide) (by decide) (by decide) (by decide)

/-- C5 (counterexample): a candidate whose start date equals its end date (a
one-day validity interval) is rejected by the create endpoint's
`start_date >= end_date` check, although the claim says it passes date
validation. -/
theorem C5_counterexample :
    cpOneDay.start_date = some 5 ∧ cpOneDay.end_date = some 5 ∧
    create_tariff_rate [] cpOneDay 0 =
      CreateOutcome.validationError "Start date must be before end date" := by
  decide

/-- C5 (amended): with `tariff_rate` supplied, the create endpoint returns a
field/range validation error exactly when a route field is missing, the
effective start date is greater than **or equal to** the effective end date,
a weight is negative, or the minimum weight exceeds the maximum; conflicts
and successful outcomes are disjoint from these. -/
theorem C5_theorem (store : List TariffRate) (p : CreatePayload) (today : Int)
    (htr : p.tariff_rate ≠ none) :
    isValidationError (create_tariff_rate store p today) = true ↔
      (p.origin_country = "" ∨ p.destination_country = "" ∨
        p.end_date.getD date2099 ≤ p.start_date.getD today ∨
        p.min_weight.getD 0 < 0 ∨ p.max_weight.getD 999999 < 0 ∨
        p.max_weight.getD 999999 < p.min_weight.getD 0) := by
  simp only [create_tariff_rate]
  split_ifs with h1 h2 h3 h4 h5 h6 h7
  · simp only [isValidationError]
    tauto
  · simp only [isValidationError]
    tauto
  · simp only [isValidationError]
    tauto
  · simp only [isValidationError]
    tauto
  · simp only [isValidationError]
    simp only [Bool.false_eq_true, false_iff]
    tauto
  · simp only [isValidationError]
    simp only [Bool.false_eq_true, false_iff]
    tauto
  · simp only [isValidationError]
    simp only [Bool.false_eq_true, false_iff]
    tauto
  · cases hpt : p.tariff_rate with
    | none => exact absurd hpt htr
    | some t =>
      simp only [isValidationError]
      simp only [Bool.false_eq_true, false_iff]
      tauto

/-- C5 (witness): the amended characterisation at a payload with a missing
origin, which is rejected as a validation error. -/
theorem C5_witness : isValidationError (create_tariff_rate [] cpNoRoute 0) = true :=
  (C5_theorem [] cpNoRoute 0 (by decide)).mpr (Or.inl (by decide))

/-- C6 (counterexample): with one historical CN to US shipment of declared
value 100 and tariff amount 0, the denominator is positive and the claim
demands `100 * (0 / 100) = 0.00`, but the code's truthiness guard on the
tariff sum routes to the default fraction and returns 80. -/
theorem C6_counterexample :
    totalDeclaredValue histZeroTariff "CN" "US" = 100 ∧
    totalTariffAmount histZeroTariff "CN" "US" = 0 ∧
    round2 (100 * (totalTariffAmount histZeroTariff "CN" "US" /
      totalDeclaredValue histZeroTariff "CN" "US")) = 0 ∧
    calculate_fallback_tariff histZeroTariff "CN" "US" 100 = 80 := by
  have hD : totalDeclaredValue histZeroTariff "CN" "US" = 100 := by
    simp [totalDeclaredValue, routeHistRows, histZeroTariff]
  have hT : totalTariffAmount histZeroTariff "CN" "US" = 0 := by
    simp [totalTariffAmount, routeHistRows, histZeroTariff]
  have hz : round2 0 = 0 := by
    have h0 : (⌊(0 : ℚ) * 100 + 1/2⌋ : ℤ) = 0 := by
      rw [Int.floor_eq_zero_iff]
      constructor <;> norm_num
    unfold round2
    rw [h0]
    norm_num
  refine ⟨hD, hT, ?_, ?_⟩
  · rw [hD, hT]
    norm_num
    exact hz
  · simp only [calculate_fallback_tariff, hD, hT]
    rw [if_neg (by norm_num)]
    have harg : (100 : ℚ) * default_rate * 100 + 1/2 = 8000 + 1/2 := by
      norm_num [default_rate]
    have hfl : (⌊(100 : ℚ) * default_rate * 100 + 1/2⌋ : ℤ) = 8000 := by
      rw [harg, Int.floor_eq_iff]
      norm_num
    unfold round2
    rw [hfl]
    norm_num

/-- C6 (amended): the fallback charges the historical route rate
`sum(tariff_amount) / sum(declared_value)` rounded to two decimals whenever
the declared-value sum is positive **and the tariff sum is nonzero**, and
the default fraction 0.8 whenever the declared-value sum is non-positive
(no usable history) **or the tariff sum is zero**. -/
theorem C6_theorem (history : List ShipHist) (o d : String) (dv : ℚ) :
    (0 < totalDeclaredValue history o d ∧ totalTariffAmount history o d ≠ 0 →
      calculate_fallback_tariff history o d dv =
        round2 (dv * (totalTariffAmount history o d / totalDeclaredValue history o d))) ∧
    (totalDeclaredValue history o d ≤ 0 ∨ totalTariffAmount history o d = 0 →
      calculate_fallback_tariff history o d dv = round2 (dv * default_rate)) := by
  constructor
  · intro h
    simp only [calculate_fallback_tariff]
    rw [if_pos h]
  · intro h
    simp only [calculate_fallback_tariff]
    rw [if_neg]
    rintro ⟨h1, h2⟩
    rcases h with h | h
    · linarith
    · exact h2 h

/-- C6 (witness): the spec's concrete scenario — empty history, declared
value 100 — yields the default-fraction amount 80.00. -/
theorem C6_witness :
    calculate_fallback_tariff [] "CN" "US" 100 = round2 (100 * default_rate) ∧
      round2 ((100 : ℚ) * default_rate) = 80 := by
  constructor
  · exact (C6_theorem [] "CN" "US" 100).2
      (Or.inl (le_of_eq (by simp [totalDeclaredValue, routeHistRows])))
  · have harg : (100 : ℚ) * default_rate * 100 + 1/2 = 8000 + 1/2 := by
      norm_num [default_rate]
    have hfl : (⌊(100 : ℚ) * default_rate * 100 + 1/2⌋ : ℤ) = 8000 := by
      rw [harg, Int.floor_eq_iff]
      norm_num
    unfold round2
    rw [hfl]
    norm_num

/-- C7 (code evaluation at the failing input): for the active rate with
weight bracket [0, 10] and a weight of 500, `calculate_tariff` silently
returns 0.0 instead of signalling the integrity error the spec requires. -/
theorem C7_theorem :
    rateBracketed.min_weight = some 0 ∧ rateBracketed.max_weight = some 10 ∧
    rateBracketed.weightOk (some 500) = false ∧
    rateBracketed.calculate_tariff 100 (some 500) = 0 := by
  decide

/-- C8: resolution and evaluation are deterministic and idempotent — with
the store and history fixed, repeating `find_applicable_rate` on the cache
state left by the first call returns the same rate (or none again), and
repeating `calculate_tariff_for_shipment` yields the identical amount,
applied rate and calculation method. -/
theorem C8_theorem :
    (∀ (store : List TariffRate) (cache : RateCache) (a : FindArgs),
      (find_applicable_rate store (find_applicable_rate store cache a).2 a).1 =
        (find_applicable_rate store cache a).1) ∧
    (∀ (store : List TariffRate) (history : List ShipHist) (cache : RateCache) (s : Shipment),
      (calculate_tariff_for_shipment store history
          (calculate_tariff_for_shipment store history cache s).2.2 s).1 =
        (calculate_tariff_for_shipment store history cache s).1 ∧
      (calculate_tariff_for_shipment store history
          (calculate_tariff_for_shipment store history cache s).2.2 s).2.1 =
        (calculate_tariff_for_shipment store history cache s).2.1 ∧
      calculation_method (calculate_tariff_for_shipment store history
          (calculate_tariff_for_shipment store history cache s).2.2 s).2.1 =
        calculation_method (calculate_tariff_for_shipment store history cache s).2.1) := by
  constructor
  · intro store cache a
    exact congrArg Prod.fst (find_applicable_rate_stable store cache a)
  · intro store history cache s
    rw [calculate_tariff_for_shipment_stable store history cache s]
    exact ⟨rfl, rfl, rfl⟩

/-- C9: a shipment whose declared value is missing, non-numeric or
non-positive yields the amount 0.0 and no applied rate, with the cache
untouched; the result is the same for every store and every history, so
neither the rate store nor the fallback estimator influences it and no
configured `minimum_tariff` is ever charged. -/
theorem C9_theorem (store : List TariffRate) (history : List ShipHist)
    (cache : RateCache) (s : Shipment)
    (hv : s.declared_value = StrVal.missing ∨ s.declared_value = StrVal.nonNumeric ∨
      ∃ q, s.declared_value = StrVal.num q ∧ q ≤ 0) :
    calculate_tariff_for_shipment store history cache s = (0, none, cache) := by
  have hdv : (shipmentValues s).1 ≤ 0 := by
    unfold shipmentValues
    rcases hv with h | h | ⟨q, h, hq⟩ <;> rw [h]
    · cases hw : floatOrNone s.bag_weight <;> simp [floatOrZero, hw]
    · cases hw : floatOrNone s.bag_weight <;> simp [floatOrZero, hw]
    · cases hw : floatOrNone s.bag_weight <;> simp [floatOrZero, hw]
      exact hq
  simp only [calculate_tariff_for_shipment]
  rw [if_pos hdv]

/-- C9 (witness): a shipment with an unparseable declared value against a
store holding a rate with minimum tariff 5 yields amount 0 and no rate. -/
theorem C9_witness :
    calculate_tariff_for_shipment [rateMinOnly] [] [] shipBadValue = (0, none, []) :=
  C9_theorem [rateMinOnly] [] [] shipBadValue (Or.inr (Or.inl rfl))

/-- C10 (counterexample): the route-has-no-active-rates miss is **not**
cached — the first call on the empty store computes `none` and leaves the
cache empty, and a later call with the same arguments after a rate was
added returns that rate instead of the previously computed `none`. -/
theorem C10_counterexample :
    (find_applicable_rate ([] : List TariffRate) [] argsWild).1 = none ∧
    (find_applicable_rate ([] : List TariffRate) [] argsWild).2 = [] ∧
    (find_applicable_rate [rateWild]
      (find_applicable_rate ([] : List TariffRate) [] argsWild).2 argsWild).1 =
      some rateWild := by
  decide

/-- C10 (amended): whenever the first call does leave the key in the cache
(every path except the route-has-no-active-rates miss), any later call with
the same arguments returns the cached result unchanged for **every** store
content — store mutations never invalidate a cache entry. -/
theorem C10_theorem (store store2 : List TariffRate) (cache : RateCache) (a : FindArgs)
    (hcached : cacheLookup (find_applicable_rate store cache a).2 a ≠ none) :
    (find_applicable_rate store2 (find_applicable_rate store cache a).2 a).1 =
      (find_applicable_rate store cache a).1 := by
  cases hc : cacheLookup cache a with
  | some v => simp [find_applicable_rate, hc]
  | none =>
    by_cases hre : (activeRouteRates store a).isEmpty
    · rw [show find_applicable_rate store cache a = (none, cache) by
        simp [find_applicable_rate, hc, hre]] at hcached
      exact absurd hc (by simpa using hcached)
    · cases hap : applicableRates store a with
      | nil => simp [find_applicable_rate, hc, hre, hap, cacheLookup]
      | cons x rest => simp [find_applicable_rate, hc, hre, hap, cacheLookup]

/-- C10 (witness): a cached hit survives a store mutation — after resolving
against the one-rate store, the same call against the emptied store still
returns the cached rate. -/
theorem C10_witness :
    (find_applicable_rate [] (find_applicable_rate [rateWild] [] argsWild).2 argsWild).1 =
      (find_applicable_rate [rateWild] [] argsWild).1 :=
  C10_theorem [rateWild] [] [] argsWild (by decide)

end CathayTariff
